import Mathlib

/-! Verification of the fsdb local engine and remote tier.

Shallow embedding of the fsdb key/value store: the local filesystem engine
(package `local`, receiver type `impl`) and the remote write-behind tier
(package `remote`, receiver type `remoteDB`), together with models of their
collaborators (the `bucket.Bucket` contract, the `errbatch` error batch, and
the byte-stream behaviour of Go's `compress/gzip`).

Keys and values are byte sequences, modelled as `List Nat`.  Filesystem paths
and bucket object names are `String`s.  The store state is a map from entry
directory paths to entry-directory contents.  Context cancellation
checkpoints always observe a live context in this model (no claim concerns
cancellation), and filesystem I/O never fails except where a claim needs an
error, which is then modelled explicitly.
-/

/-- Errors surfaced by the engine, mirroring the error kinds of the code:
`fsdb.NoSuchKeyError`, `local.KeyCollisionError` (with `NewKey`/`OldKey`),
`gzip.ErrHeader` from `gzip.NewReader`, and the bucket's NotExist errors. -/
inductive FsdbError where
  | noSuchKey (key : List Nat)
  | keyCollision (newKey oldKey : List Nat)
  | gzipHeaderError
  | bucketNotExist (name : String)
  deriving DecidableEq, Repr

/-- Go's `fsdb.IsNoSuchKeyError` on a single error value. -/
def FsdbError.isNoSuchKeyErr : FsdbError → Bool
  | .noSuchKey _ => true
  | _ => false

/-- Go's `fsdb.IsNoSuchKeyError` applied to a possibly-nil error (`none` =
nil). -/
def isNoSuchKeyO : Option FsdbError → Bool
  | some e => e.isNoSuchKeyErr
  | none => false

/-- Go's `Bucket.IsNotExist` on a single error value. -/
def FsdbError.isNotExistErr : FsdbError → Bool
  | .bucketNotExist _ => true
  | _ => false

/-- Go's `Bucket.IsNotExist` applied to a possibly-nil error (`none` = nil;
real bucket implementations report `false` on a nil error). -/
def isNotExistO : Option FsdbError → Bool
  | some e => e.isNotExistErr
  | none => false

/-! ## Byte-stream model of Go's compress/gzip

Only the structure of the streams matters to the code under verification:
a gzip stream is a 10-byte header followed by the deflate body; the DEFLATE
encoding itself is modelled as a length-prefixed stored block (an injective
encoding with an explicit decoder).  The compression level changes real
output bytes but none of the structure the code relies on, so the model
ignores it. -/

/-- The 10-byte gzip member header (magic `1f 8b`, method 8, empty flags and
mtime, XFL modelled as 0, OS byte 255).  `gzip.NewReader` consumes exactly
these 10 bytes from a stream written with empty flags. -/
def gzipHeader : List Nat := [31, 139, 8, 0, 0, 0, 0, 0, 0, 255]

/-- Model of the DEFLATE body: a stored block carrying an explicit length. -/
def deflate (v : List Nat) : List Nat := v.length :: v

/-- Decoder for `deflate`. -/
def inflate : List Nat → Option (List Nat)
  | n :: rest => if n = rest.length then some rest else none
  | [] => none

/-- The bytes a gzip writer emits for a whole member (header then body).
This is what `gzip.NewWriterLevel` + copy-through + `Close` produces. -/
def gzipCompress (v : List Nat) : List Nat := gzipHeader ++ deflate v

/-- Model of `gzip.NewReader` on a buffered stream: checks and consumes the 10-byte
header, returning the rest of the buffer (the body the decompressor will
read lazily), or fails with `ErrHeader`. -/
def gzipNewReaderConsume (s : List Nat) : Option (List Nat) :=
  if s.take 10 = gzipHeader then some (s.drop 10) else none

/-- Full decompression: header check then body decode. -/
def gzipDecompress (s : List Nat) : Option (List Nat) :=
  (gzipNewReaderConsume s).bind inflate

/-- The bytes `gzipWriter.Flush()` appends when nothing has been written
through the writer yet: the member header followed by an empty sync-flush
deflate block. -/
def syncFlushBlock : List Nat := [0, 0, 255, 255]

/-! ## CRC-32 Castagnoli

Bitwise (reflected) implementation over the Castagnoli polynomial
`0x82F63B78`, matching `crc32.Checksum(content, crc32.MakeTable(crc32.Castagnoli))`. -/

/-- One bit step of the reflected CRC-32C feedback register. -/
def crc32cStep (c : Nat) : Nat :=
  if c % 2 = 1 then (c / 2) ^^^ 0x82F63B78 else c / 2

/-- Fold one input byte into the register (eight bit steps). -/
def crc32cByteStep (c b : Nat) : Nat := crc32cStep^[8] (c ^^^ b % 256)

/-- CRC-32C of a byte sequence. -/
def crc32c (bs : List Nat) : Nat :=
  bs.foldl crc32cByteStep 0xFFFFFFFF ^^^ 0xFFFFFFFF

/-! ## Local engine state -/

/-- Contents of one entry directory `D`: the `key`, `data` and `data.gz`
files, each `none` when absent. -/
structure EntryDir where
  keyFile : Option (List Nat)
  dataFile : Option (List Nat)
  gzFile : Option (List Nat)
  deriving DecidableEq, Repr

/-- The empty entry directory (also the state after `os.RemoveAll(dir)`). -/
def EntryDir.empty : EntryDir := ⟨none, none, none⟩

/-- The data root: entry-directory contents indexed by directory path. -/
structure LocalState where
  dirs : String → EntryDir

/-- Replace the contents of one entry directory. -/
def LocalState.setDir (st : LocalState) (p : String) (e : EntryDir) : LocalState :=
  ⟨fun q => if q = p then e else st.dirs q⟩

/-- The options the `local` engine consults (`local.Options` is configured
outside the embedded files; only the accessors used by `impl` appear here):
the directory resolver `GetDirForKey`, the compression switch `GetUseGzip`,
and the gzip level `GetGzipLevel` (level is threaded but has no effect on
the modelled stream structure). -/
structure Options where
  getDirForKey : List Nat → String
  getUseGzip : Bool
  getGzipLevel : Nat

/-! ## Local engine operations (src/unnamed/part_000) -/

/-- Model of `impl.Read` (part_000 lines 69-105) composed with reading the returned
stream to the end: resolve the directory; missing `key` file is NoSuchKey;
a `key` file whose contents differ from the requested key is a
KeyCollision (`checkKeyCollision`, lines 322-334); otherwise open `data`
if present, else `data.gz` through a gzip reader, else NoSuchKey. -/
def Impl.Read (opts : Options) (st : LocalState) (key : List Nat) :
    Except FsdbError (List Nat) :=
  let entry := st.dirs (opts.getDirForKey key)
  match entry.keyFile with
  | none => .error (.noSuchKey key)
  | some old =>
    if key = old then
      match entry.dataFile with
      | some d => .ok d
      | none =>
        match entry.gzFile with
        | some g =>
          match gzipDecompress g with
          | some v => .ok v
          | none => .error .gzipHeaderError
        | none => .error (.noSuchKey key)
    else .error (.keyCollision key old)

/-- The entry-directory contents after the commit phase of `impl.Write`
(part_000 lines 203-226): first both `data` and `data.gz` are removed from
`D` (NotExist ignored), then the temp data file is renamed to `data.gz`
(gzip on) or `data` (gzip off), then the temp key file is renamed to `key`. -/
def writtenEntry (opts : Options) (entry : EntryDir) (key data : List Nat) : EntryDir :=
  let e₁ : EntryDir := { entry with dataFile := none, gzFile := none }
  let e₂ : EntryDir :=
    if opts.getUseGzip then { e₁ with gzFile := some (gzipCompress data) }
    else { e₁ with dataFile := some data }
  { e₂ with keyFile := some key }

/-- Model of `impl.Write` (part_000 lines 107-227): if `D/key` exists its contents
must equal the requested key (else KeyCollision, before any mutation); the
temp-directory writes have no observable effect on the data root and the
commit phase is `writtenEntry`.  Returns the Go error value and the
resulting store. -/
def Impl.Write (opts : Options) (st : LocalState) (key data : List Nat) :
    Option FsdbError × LocalState :=
  let dirPath := opts.getDirForKey key
  let entry := st.dirs dirPath
  match entry.keyFile with
  | some old =>
    if key = old then (none, st.setDir dirPath (writtenEntry opts entry key data))
    else (some (.keyCollision key old), st)
  | none => (none, st.setDir dirPath (writtenEntry opts entry key data))

/-- Model of `impl.Delete` (part_000 lines 229-245): missing `D/key` is NoSuchKey; a
key mismatch is KeyCollision (before any mutation); otherwise
`os.RemoveAll(dir)` empties the entry directory. -/
def Impl.Delete (opts : Options) (st : LocalState) (key : List Nat) :
    Option FsdbError × LocalState :=
  let dirPath := opts.getDirForKey key
  let entry := st.dirs dirPath
  match entry.keyFile with
  | none => (some (.noSuchKey key), st)
  | some old =>
    if key = old then (none, st.setDir dirPath EntryDir.empty)
    else (some (.keyCollision key old), st)

/-! ## ScanKeys walk model (src/unnamed/part_000 lines 247-304)

`filepath.Walk` visits nodes in filesystem order; the model takes the visit
sequence as a list.  Each node is either a directory, a regular file named
`key` (with its contents, or a read failure), another regular file, or a
node for which the walk itself reports an error.  `filepath.SkipDir` (the
skip decision of a non-nil `errFunc`) is modelled as continuing with the
next node; the directory-pruning `os.Remove(path)` does not change the
visit sequence being consumed. -/

inductive WalkNode where
  | nodeDir (path : String)
  | nodeKeyFile (path : String) (key : List Nat)
  | nodeKeyFileErr (path : String)
  | nodeOther (path : String)
  | nodeErr (path : String)
  deriving DecidableEq, Repr

/-- Outcome of a scan: clean return, an error propagated to the caller, or a
runtime panic (Go panics when a nil function value is called). -/
inductive ScanResult where
  | ok
  | errored (path : String)
  | panicked
  deriving DecidableEq, Repr

/-- Model of `impl.ScanKeys` (part_000 lines 247-304).  For an error node the code
runs `errFunc(path, err)` unconditionally — with a nil `errFunc` that call
panics; a non-nil `errFunc` returning true skips, returning false
propagates the error.  A `key` file is read and fed to `keyFunc`; `keyFunc`
returning false aborts the walk with `errCanceled`, which `ScanKeys`
converts to a nil return (lines 300-303). -/
def Impl.ScanKeys (keyFunc : List Nat → Bool) (errFunc : Option (String → Bool)) :
    List WalkNode → ScanResult
  | [] => .ok
  | node :: rest =>
    match node with
    | .nodeDir _ => Impl.ScanKeys keyFunc errFunc rest
    | .nodeKeyFile _ k =>
      if keyFunc k then Impl.ScanKeys keyFunc errFunc rest else .ok
    | .nodeKeyFileErr p =>
      match errFunc with
      | none => .panicked
      | some f => if f p then Impl.ScanKeys keyFunc errFunc rest else .errored p
    | .nodeOther _ => Impl.ScanKeys keyFunc errFunc rest
    | .nodeErr p =>
      match errFunc with
      | none => .panicked
      | some f => if f p then Impl.ScanKeys keyFunc errFunc rest else .errored p

/-! ## Bucket model (contract from src/bucket/bucket.go) -/

/-- A bucket: object contents by name. -/
structure BucketState where
  objs : String → Option (List Nat)

/-- Model of `Bucket.Read`: a stream of the object bytes, or a NotExist error. -/
def bucketRead (bst : BucketState) (name : String) : Except FsdbError (List Nat) :=
  match bst.objs name with
  | some c => .ok c
  | none => .error (.bucketNotExist name)

/-- Model of `Bucket.Write`: overwrites the object (the contract gives it no failure
mode the verified code inspects, so it always succeeds in the model). -/
def bucketWrite (bst : BucketState) (name : String) (content : List Nat) : BucketState :=
  ⟨fun q => if q = name then some content else bst.objs q⟩

/-- Model of `Bucket.Delete`: removes the object; deleting an absent object reports
an error for which `IsNotExist` holds. -/
def bucketDelete (bst : BucketState) (name : String) : Option FsdbError × BucketState :=
  match bst.objs name with
  | some _ => (none, ⟨fun q => if q = name then none else bst.objs q⟩)
  | none => (some (.bucketNotExist name), bst)

/-! ## errbatch model -/

/-- Modelled from the spec: `errbatch.ErrBatch.Add` collects errors,
skipping nil ones (the members added by `remoteDB.Delete` are never
themselves batches, so batch flattening never applies). -/
def ErrBatch.Add (b : List FsdbError) : Option FsdbError → List FsdbError
  | none => b
  | some e => b ++ [e]

/-- The result of the remote `Delete`: nil, a `NoSuchKeyError`, the single
collected error, or a compiled batch of several. -/
inductive DeleteErr where
  | noSuchKey (key : List Nat)
  | single (e : FsdbError)
  | batched (errs : List FsdbError)
  deriving DecidableEq, Repr

/-- Modelled from the spec: `errbatch.ErrBatch.Compile` returns nil for an
empty batch ("possibly empty → ok"), the underlying error when exactly one
was collected, and the batch otherwise. -/
def ErrBatch.Compile : List FsdbError → Option DeleteErr
  | [] => none
  | [e] => some (.single e)
  | es => some (.batched es)

/-! ## Remote tier (src/unnamed/part_001) -/

/-- The options the remote tier consults: the object-name function
`GetRemoteName` and the scan-loop skip predicate `SkipKey`.  The logger is
nil in the model and the upload cadence does not affect any claim. -/
structure RemoteOptions where
  getRemoteName : List Nat → String
  skipKey : List Nat → Bool

/-- Model of `remoteDB.Read` (part_001 lines 51-98): local first; a non-NoSuchKey
local error propagates; on a bucket NotExist fall through to a final local
read; otherwise buffer the object, re-check local (a fresh write wins),
construct a gzip reader over the buffer — which consumes the 10-byte
header — and then pass the *buffer* (line 93: `db.local.Write(key, buf)`,
i.e. the remaining compressed bytes, not the gzip reader's output) to the
local write, finally returning a fresh local read. -/
def RemoteDB.Read (opts : Options) (ropts : RemoteOptions)
    (lst : LocalState) (bst : BucketState) (key : List Nat) :
    Except FsdbError (List Nat) × LocalState :=
  match Impl.Read opts lst key with
  | .ok d => (.ok d, lst)
  | .error e =>
    if e.isNoSuchKeyErr then
      match bucketRead bst (ropts.getRemoteName key) with
      | .error be =>
        if be.isNotExistErr then (Impl.Read opts lst key, lst)
        else (.error be, lst)
      | .ok remoteData =>
        match Impl.Read opts lst key with
        | .ok d => (.ok d, lst)
        | .error _ =>
          match gzipNewReaderConsume remoteData with
          | none => (.error .gzipHeaderError, lst)
          | some remaining =>
            match Impl.Write opts lst key remaining with
            | (some we, lst') => (.error we, lst')
            | (none, lst') => (Impl.Read opts lst' key, lst')
    else (.error e, lst)

/-- Model of `remoteDB.Write` (part_001 lines 121-123): writes to local only. -/
def RemoteDB.Write (opts : Options) (lst : LocalState) (key data : List Nat) :
    Option FsdbError × LocalState :=
  Impl.Write opts lst key data

/-- The error-combining logic of `remoteDB.Delete` (part_001 lines
101-118): a leg whose error fails its NotExist predicate clears
`existNeither` and is added to the batch (nil skipped by `Add`); if both
legs reported not-exist the result is `NoSuchKeyError`, else the compiled
batch. -/
def RemoteDB.deleteCombine (key : List Nat) (lerr berr : Option FsdbError) :
    Option DeleteErr :=
  let b₁ := if isNoSuchKeyO lerr then [] else ErrBatch.Add [] lerr
  let b₂ := if isNotExistO berr then b₁ else ErrBatch.Add b₁ berr
  if isNoSuchKeyO lerr && isNotExistO berr then some (.noSuchKey key)
  else ErrBatch.Compile b₂

/-- Model of `remoteDB.Delete` (part_001 lines 100-119): attempt `Local.Delete` and
`Bucket.Delete`, combine the two error values with `deleteCombine`. -/
def RemoteDB.Delete (opts : Options) (ropts : RemoteOptions)
    (lst : LocalState) (bst : BucketState) (key : List Nat) :
    Option DeleteErr × LocalState × BucketState :=
  let ldel := Impl.Delete opts lst key
  let bdel := bucketDelete bst (ropts.getRemoteName key)
  (RemoteDB.deleteCombine key ldel.1 bdel.1, ldel.2, bdel.2)

/-- Model of `remoteDB.readAndGzip` (part_001 lines 145-166): read the local value
to the end; `gzip.NewWriterLevel(buf, BestCompression)` writes nothing
until used; `io.Copy(buf, reader)` (line 157) copies the raw value bytes
straight into `buf`, bypassing the gzip writer; `gzipWriter.Flush()` then
appends the member header and an empty sync-flush block; `buf.Bytes()` is
taken before the deferred `Close`, so no footer follows.  Returns the
CRC-32C of that content and the content. -/
def RemoteDB.readAndGzip (opts : Options) (st : LocalState) (key : List Nat) :
    Except FsdbError (Nat × List Nat) :=
  match Impl.Read opts st key with
  | .error e => .error e
  | .ok v =>
    let content := v ++ gzipHeader ++ syncFlushBlock
    .ok (crc32c content, content)

/-- Trace of one `uploadKey` run: which return point was taken.  `deleted`
carries the error value of the final `Local.Delete` (line 140 returns it
directly); `keptLocal` is the nil return when the checksums differ. -/
inductive UploadOutcome where
  | errFirstRead (e : FsdbError)
  | errSecondRead (e : FsdbError)
  | deleted (err : Option FsdbError)
  | keptLocal
  deriving DecidableEq, Repr

/-- The Go error value `uploadKey` returns for each outcome. -/
def UploadOutcome.toErr : UploadOutcome → Option FsdbError
  | .errFirstRead e => some e
  | .errSecondRead e => some e
  | .deleted err => err
  | .keptLocal => none

/-- Model of `remoteDB.uploadKey` (part_001 lines 125-143).  Foreground operations
may mutate the local store between its own local operations, so the local
store is sampled at three points: `s0` at the first `readAndGzip`, `s1` at
the second, `s2` at the final `Local.Delete` (with no interference
`s0 = s1 = s2`).  The bucket write (line 130) always succeeds in the
bucket model.  Returns the outcome, the local store after the last local
operation, and the bucket. -/
def RemoteDB.uploadKey (opts : Options) (ropts : RemoteOptions)
    (s0 s1 s2 : LocalState) (bst : BucketState) (key : List Nat) :
    UploadOutcome × LocalState × BucketState :=
  match RemoteDB.readAndGzip opts s0 key with
  | .error e => (.errFirstRead e, s2, bst)
  | .ok (oldCrc, content) =>
    let bst' := bucketWrite bst (ropts.getRemoteName key) content
    match RemoteDB.readAndGzip opts s1 key with
    | .error e => (.errSecondRead e, s2, bst')
    | .ok (newCrc, _) =>
      if newCrc = oldCrc then
        let d := Impl.Delete opts s2 key
        (.deleted d.1, d.2, bst')
      else (.keptLocal, s2, bst')

/-- How a scan-loop worker tallies one key (part_001 lines 190-204):
skipped when the skip predicate holds, otherwise failed on any non-nil
`uploadKey` error and uploaded on nil. -/
inductive WorkerCount where
  | skipped
  | uploaded
  | failed
  deriving DecidableEq, Repr

/-- The tally a worker records for `key` given `uploadKey`'s returned
error. -/
def RemoteDB.workerTally (ropts : RemoteOptions) (key : List Nat)
    (uploadErr : Option FsdbError) : WorkerCount :=
  if ropts.skipKey key then .skipped
  else match uploadErr with
    | some _ => .failed
    | none => .uploaded

/-! ## Concrete fixtures for witnesses and counterexamples -/

/-- A resolver sending every key to the same bucket directory. -/
def res0 : List Nat → String := fun _ => "d/"

/-- Local options, compression off. -/
def opts0 : Options := ⟨res0, false, 9⟩

/-- Local options, compression on. -/
def optsGz : Options := ⟨res0, true, 9⟩

/-- The empty store. -/
def st0 : LocalState := ⟨fun _ => EntryDir.empty⟩

/-- The key `"foo"`. -/
def kFoo : List Nat := [102, 111, 111]

/-- The value `"bar"`. -/
def vBar : List Nat := [98, 97, 114]

/-- A store holding the single entry `"foo" ↦ "bar"` stored raw. -/
def stBar : LocalState :=
  ⟨fun q => if q = "d/" then ⟨some kFoo, some vBar, none⟩ else EntryDir.empty⟩

/-- A store whose `"d/"` bucket is occupied by the key `"bar"` — a
collision for any other key resolved to `"d/"`. -/
def stCollide : LocalState :=
  ⟨fun q => if q = "d/" then ⟨some vBar, some [1], none⟩ else EntryDir.empty⟩

/-- A store whose entry for `"foo"` holds raw `"bar"` in `data` AND a
compressed `[9, 9]` in `data.gz` (a transient double-encoding state). -/
def stBoth : LocalState :=
  ⟨fun q => if q = "d/" then ⟨some kFoo, some vBar, some (gzipCompress [9, 9])⟩
    else EntryDir.empty⟩

/-- Remote options: every key maps to the object name `"obj"`, no key is
skipped. -/
def ropts0 : RemoteOptions := ⟨fun _ => "obj", fun _ => false⟩

/-- The empty bucket. -/
def bst0 : BucketState := ⟨fun _ => none⟩

/-- A bucket holding the gzip of `"bar"` at `"obj"`. -/
def bstGz : BucketState :=
  ⟨fun n => if n = "obj" then some (gzipCompress vBar) else none⟩

/-- The bucket directory every key resolves to under `res0`. -/
def dirD : String := "d/"

/-- A walk path used in scan counterexamples. -/
def pErr : String := "p"

/-- Bytes `readAndGzip` actually produces for the local value `"bar"`:
the raw value, then the member header and empty sync-flush block that
`gzipWriter.Flush()` appends. -/
def uploadContent : List Nat := vBar ++ gzipHeader ++ syncFlushBlock

/-- Modelled from the spec: the non-NotExist failures among the two delete
legs — the local error unless `IsNoSuchKeyError` holds of it, and the
bucket error unless the bucket's `IsNotExist` holds of it. -/
def nonNotExistFailures (lerr berr : Option FsdbError) : List FsdbError :=
  (match lerr with
   | some e => if e.isNoSuchKeyErr then [] else [e]
   | none => []) ++
  (match berr with
   | some e => if e.isNotExistErr then [] else [e]
   | none => [])

/-! ## Helper lemmas -/

theorem gzip_roundtrip (v : List Nat) : gzipDecompress (gzipCompress v) = some v := by
  simp [gzipDecompress, gzipCompress, gzipNewReaderConsume, gzipHeader, deflate, inflate]

/-! ## C1: local write/read round trip -/

/-- C1: for every key `k` and value `v`, a Local `Write(k, v)` on a store
with no colliding entry in `k`'s bucket succeeds, and a subsequent Local
`Read(k)` yields exactly `v` — with compression enabled (value stored as
`data.gz`) and disabled (value stored as `data`) alike, since the options
are arbitrary here. -/
theorem local_write_then_read_roundtrip (opts : Options) (st : LocalState)
    (k v : List Nat)
    (h : (st.dirs (opts.getDirForKey k)).keyFile = none ∨
      (st.dirs (opts.getDirForKey k)).keyFile = some k) :
    (Impl.Write opts st k v).1 = none ∧
      Impl.Read opts (Impl.Write opts st k v).2 k = .ok v := by
  have hwrite : Impl.Write opts st k v =
      (none, st.setDir (opts.getDirForKey k)
        (writtenEntry opts (st.dirs (opts.getDirForKey k)) k v)) := by
    rcases h with h | h <;> simp [Impl.Write, h]
  refine ⟨by rw [hwrite], ?_⟩
  rw [hwrite]
  cases hg : opts.getUseGzip <;>
    simp [Impl.Read, LocalState.setDir, writtenEntry, hg, gzip_roundtrip]

/-- Witness for C1 at concrete inputs, once per compression mode. -/
theorem local_write_then_read_roundtrip_witness :
    ((Impl.Write opts0 st0 kFoo vBar).1 = none ∧
      Impl.Read opts0 (Impl.Write opts0 st0 kFoo vBar).2 kFoo = .ok vBar) ∧
    ((Impl.Write optsGz st0 kFoo vBar).1 = none ∧
      Impl.Read optsGz (Impl.Write optsGz st0 kFoo vBar).2 kFoo = .ok vBar) :=
  ⟨local_write_then_read_roundtrip opts0 st0 kFoo vBar (Or.inl rfl),
   local_write_then_read_roundtrip optsGz st0 kFoo vBar (Or.inl rfl)⟩

/-! ## C6: key collisions reject all three operations and change nothing -/

/-- C6: when the resolver bucket for `k` already holds an entry whose key
file contains a different key `k'`, Local `Read`, `Write` and `Delete` all
return a KeyCollision error carrying the new key `k` and the old key `k'`,
and the store — in particular the entry for `k'` — is unchanged. -/
theorem local_collision_rejects_ops (opts : Options) (st : LocalState)
    (k k' v : List Nat) (hne : k ≠ k')
    (hk : (st.dirs (opts.getDirForKey k)).keyFile = some k') :
    Impl.Read opts st k = .error (.keyCollision k k') ∧
      (Impl.Write opts st k v).1 = some (.keyCollision k k') ∧
      (Impl.Write opts st k v).2 = st ∧
      (Impl.Delete opts st k).1 = some (.keyCollision k k') ∧
      (Impl.Delete opts st k).2 = st := by
  refine ⟨?_, ?_, ?_, ?_, ?_⟩ <;>
    simp [Impl.Read, Impl.Write, Impl.Delete, hk, hne]

/-- Witness for C6: the bucket of key `"foo"` is occupied by key `"bar"`. -/
theorem local_collision_rejects_ops_witness :
    Impl.Read opts0 stCollide kFoo = .error (.keyCollision kFoo vBar) ∧
      (Impl.Write opts0 stCollide kFoo [7]).1 = some (.keyCollision kFoo vBar) ∧
      (Impl.Write opts0 stCollide kFoo [7]).2 = stCollide ∧
      (Impl.Delete opts0 stCollide kFoo).1 = some (.keyCollision kFoo vBar) ∧
      (Impl.Delete opts0 stCollide kFoo).2 = stCollide :=
  local_collision_rejects_ops opts0 stCollide kFoo vBar [7] (by decide) rfl

/-! ## C7: single-encoding after a successful write -/

/-- C7: after every successful Local `Write(k, v)` the entry directory for
`k` holds exactly the data file matching the configured compression mode —
`data.gz` with the compressed value and no `data` when gzip is on, `data`
with the raw value and no `data.gz` when gzip is off — whatever files were
there before (the protocol removed both before renaming). -/
theorem local_write_single_encoding (opts : Options) (st : LocalState)
    (k v : List Nat) (h : (Impl.Write opts st k v).1 = none) :
    ((Impl.Write opts st k v).2.dirs (opts.getDirForKey k)).dataFile =
      (if opts.getUseGzip then none else some v) ∧
    ((Impl.Write opts st k v).2.dirs (opts.getDirForKey k)).gzFile =
      (if opts.getUseGzip then some (gzipCompress v) else none) := by
  unfold Impl.Write at h ⊢
  rcases hk : (st.dirs (opts.getDirForKey k)).keyFile with _ | old
  · simp only [hk]
    cases hg : opts.getUseGzip <;>
      simp [LocalState.setDir, writtenEntry, hg]
  · simp only [hk] at h ⊢
    by_cases he : k = old
    · simp only [he, if_pos rfl]
      cases hg : opts.getUseGzip <;>
        simp [LocalState.setDir, writtenEntry, hg]
    · simp [he] at h

/-- Witness for C7, once per compression mode, starting from a corrupted
entry that holds both `data` and `data.gz`. -/
theorem local_write_single_encoding_witness :
    (((Impl.Write opts0 stBoth kFoo vBar).2.dirs (opts0.getDirForKey kFoo)).dataFile =
        (if opts0.getUseGzip then none else some vBar) ∧
      ((Impl.Write opts0 stBoth kFoo vBar).2.dirs (opts0.getDirForKey kFoo)).gzFile =
        (if opts0.getUseGzip then some (gzipCompress vBar) else none)) ∧
    (((Impl.Write optsGz stBoth kFoo vBar).2.dirs (optsGz.getDirForKey kFoo)).dataFile =
        (if optsGz.getUseGzip then none else some vBar) ∧
      ((Impl.Write optsGz stBoth kFoo vBar).2.dirs (optsGz.getDirForKey kFoo)).gzFile =
        (if optsGz.getUseGzip then some (gzipCompress vBar) else none)) :=
  ⟨local_write_single_encoding opts0 stBoth kFoo vBar (by decide),
   local_write_single_encoding optsGz stBoth kFoo vBar (by decide)⟩

/-! ## C10: the raw data file takes precedence over data.gz -/

/-- C10: when an entry directory transiently holds both `data` and
`data.gz` beside a matching `key` file, Local `Read` returns the contents
of the raw `data` file; `data.gz` is not consulted. -/
theorem local_read_prefers_raw_data (opts : Options) (st : LocalState)
    (k d g : List Nat)
    (hk : (st.dirs (opts.getDirForKey k)).keyFile = some k)
    (hd : (st.dirs (opts.getDirForKey k)).dataFile = some d)
    (_hg : (st.dirs (opts.getDirForKey k)).gzFile = some g) :
    Impl.Read opts st k = .ok d := by
  simp [Impl.Read, hk, hd]

/-- Witness for C10 on an entry holding both encodings with different
contents. -/
theorem local_read_prefers_raw_data_witness :
    Impl.Read opts0 stBoth kFoo = .ok vBar :=
  local_read_prefers_raw_data opts0 stBoth kFoo vBar (gzipCompress [9, 9])
    rfl rfl rfl

/-! ## C2: what the uploader ships to the bucket -/

/-- C2 is refuted by the code: on the store holding `"foo" ↦ "bar"`,
`readAndGzip` returns content equal to the raw value bytes followed by a
flushed empty gzip member — because `io.Copy(buf, reader)` bypasses the
gzip writer — and that content is not the gzip compression of `"bar"`;
the checksum is CRC-32C of that non-gzip content. -/
theorem readAndGzip_ships_raw_bytes :
    RemoteDB.readAndGzip opts0 stBar kFoo =
      .ok (crc32c uploadContent, uploadContent) ∧
    uploadContent ≠ gzipCompress vBar :=
  ⟨rfl, by decide⟩

/-! ## C3: what the remote Read stores locally -/

/-- C3 is refuted by the code: with `"foo"` absent locally and
`gzipCompress "bar"` in the bucket, the remote Read hands `Local.Write`
the downloaded buffer *after* `gzip.NewReader` consumed its 10-byte
header — the compressed body, not the decompressed value — so the entry's
`data` file holds the compressed body and the returned bytes are that
body, not `"bar"`. -/
theorem remote_read_stores_compressed_remainder :
    (RemoteDB.Read opts0 ropts0 st0 bstGz kFoo).1 = .ok (deflate vBar) ∧
    ((RemoteDB.Read opts0 ropts0 st0 bstGz kFoo).2.dirs dirD).dataFile =
      some (deflate vBar) ∧
    deflate vBar ≠ vBar :=
  ⟨rfl, rfl, by decide⟩

/-! ## C4: the checksum re-check gates the local delete -/

/-- C4: provided both `readAndGzip` calls succeed (returning `c0` before
the bucket write and `c1` after), `uploadKey` performs the local delete if
and only if `c1 = c0`; when the checksums differ it returns nil without
deleting, leaving the local store exactly as it was. -/
theorem uploadKey_deletes_iff_crc_match (opts : Options) (ropts : RemoteOptions)
    (s0 s1 s2 : LocalState) (bst : BucketState) (k : List Nat)
    (c0 c1 : Nat) (b0 b1 : List Nat)
    (h0 : RemoteDB.readAndGzip opts s0 k = .ok (c0, b0))
    (h1 : RemoteDB.readAndGzip opts s1 k = .ok (c1, b1)) :
    (((RemoteDB.uploadKey opts ropts s0 s1 s2 bst k).1 =
        .deleted (Impl.Delete opts s2 k).1 ∧
      (RemoteDB.uploadKey opts ropts s0 s1 s2 bst k).2.1 =
        (Impl.Delete opts s2 k).2) ↔ c1 = c0) ∧
    (c1 ≠ c0 →
      (RemoteDB.uploadKey opts ropts s0 s1 s2 bst k).1 = .keptLocal ∧
      (RemoteDB.uploadKey opts ropts s0 s1 s2 bst k).1.toErr = none ∧
      (RemoteDB.uploadKey opts ropts s0 s1 s2 bst k).2.1 = s2) := by
  unfold RemoteDB.uploadKey
  rw [h0, h1]
  by_cases hc : c1 = c0 <;> simp [hc, UploadOutcome.toErr]

/-- Witness for C4: with no interference the two checksums agree and the
delete leg runs. -/
theorem uploadKey_deletes_iff_crc_match_witness :
    (RemoteDB.readAndGzip opts0 stBar kFoo =
      .ok (crc32c uploadContent, uploadContent)) ∧
    ((((RemoteDB.uploadKey opts0 ropts0 stBar stBar stBar bst0 kFoo).1 =
        .deleted (Impl.Delete opts0 stBar kFoo).1 ∧
      (RemoteDB.uploadKey opts0 ropts0 stBar stBar stBar bst0 kFoo).2.1 =
        (Impl.Delete opts0 stBar kFoo).2) ↔
        crc32c uploadContent = crc32c uploadContent) ∧
    (crc32c uploadContent ≠ crc32c uploadContent →
      (RemoteDB.uploadKey opts0 ropts0 stBar stBar stBar bst0 kFoo).1 = .keptLocal ∧
      (RemoteDB.uploadKey opts0 ropts0 stBar stBar stBar bst0 kFoo).1.toErr = none ∧
      (RemoteDB.uploadKey opts0 ropts0 stBar stBar stBar bst0 kFoo).2.1 = stBar)) :=
  ⟨rfl, uploadKey_deletes_iff_crc_match opts0 ropts0 stBar stBar stBar bst0 kFoo
    (crc32c uploadContent) (crc32c uploadContent) uploadContent uploadContent rfl rfl⟩

/-! ## C5: the remote Delete's error surface -/

theorem deleteCombine_cases (k : List Nat) (lerr berr : Option FsdbError) :
    (RemoteDB.deleteCombine k lerr berr = some (.noSuchKey k) ↔
      isNoSuchKeyO lerr = true ∧ isNotExistO berr = true) ∧
    (lerr = none ∧ berr = none → RemoteDB.deleteCombine k lerr berr = none) ∧
    (¬(isNoSuchKeyO lerr = true ∧ isNotExistO berr = true) →
      RemoteDB.deleteCombine k lerr berr =
        ErrBatch.Compile (nonNotExistFailures lerr berr)) := by
  rcases lerr with _ | e
  · rcases berr with _ | e'
    · simp [RemoteDB.deleteCombine, nonNotExistFailures, isNoSuchKeyO, isNotExistO,
        ErrBatch.Add, ErrBatch.Compile]
    · cases e' <;>
        simp [RemoteDB.deleteCombine, nonNotExistFailures, isNoSuchKeyO, isNotExistO,
          FsdbError.isNoSuchKeyErr, FsdbError.isNotExistErr, ErrBatch.Add,
          ErrBatch.Compile]
  · rcases berr with _ | e'
    · cases e <;>
        simp [RemoteDB.deleteCombine, nonNotExistFailures, isNoSuchKeyO, isNotExistO,
          FsdbError.isNoSuchKeyErr, FsdbError.isNotExistErr, ErrBatch.Add,
          ErrBatch.Compile]
    · cases e <;> cases e' <;>
        simp [RemoteDB.deleteCombine, nonNotExistFailures, isNoSuchKeyO, isNotExistO,
          FsdbError.isNoSuchKeyErr, FsdbError.isNotExistErr, ErrBatch.Add,
          ErrBatch.Compile]

/-- C5: the remote `Delete(k)` returns NoSuchKey exactly when the local
delete reports NoSuchKey and the bucket delete reports NotExist; in every
other case it returns the compiled batch of the non-NotExist failures,
which is nil (ok) when both deletes succeeded. -/
theorem remote_delete_error_surface (opts : Options) (ropts : RemoteOptions)
    (lst : LocalState) (bst : BucketState) (k : List Nat) :
    ((RemoteDB.Delete opts ropts lst bst k).1 = some (.noSuchKey k) ↔
      isNoSuchKeyO (Impl.Delete opts lst k).1 = true ∧
        isNotExistO (bucketDelete bst (ropts.getRemoteName k)).1 = true) ∧
    ((Impl.Delete opts lst k).1 = none ∧
        (bucketDelete bst (ropts.getRemoteName k)).1 = none →
      (RemoteDB.Delete opts ropts lst bst k).1 = none) ∧
    (¬(isNoSuchKeyO (Impl.Delete opts lst k).1 = true ∧
        isNotExistO (bucketDelete bst (ropts.getRemoteName k)).1 = true) →
      (RemoteDB.Delete opts ropts lst bst k).1 =
        ErrBatch.Compile (nonNotExistFailures (Impl.Delete opts lst k).1
          (bucketDelete bst (ropts.getRemoteName k)).1)) := by
  simpa [RemoteDB.Delete] using
    deleteCombine_cases k (Impl.Delete opts lst k).1
      (bucketDelete bst (ropts.getRemoteName k)).1

/-- Witness for C5 at a concrete two-tier state (entry present in both
tiers). -/
theorem remote_delete_error_surface_witness :
    ((RemoteDB.Delete opts0 ropts0 stBar bstGz kFoo).1 = some (.noSuchKey kFoo) ↔
      isNoSuchKeyO (Impl.Delete opts0 stBar kFoo).1 = true ∧
        isNotExistO (bucketDelete bstGz (ropts0.getRemoteName kFoo)).1 = true) ∧
    ((Impl.Delete opts0 stBar kFoo).1 = none ∧
        (bucketDelete bstGz (ropts0.getRemoteName kFoo)).1 = none →
      (RemoteDB.Delete opts0 ropts0 stBar bstGz kFoo).1 = none) ∧
    (¬(isNoSuchKeyO (Impl.Delete opts0 stBar kFoo).1 = true ∧
        isNotExistO (bucketDelete bstGz (ropts0.getRemoteName kFoo)).1 = true) →
      (RemoteDB.Delete opts0 ropts0 stBar bstGz kFoo).1 =
        ErrBatch.Compile (nonNotExistFailures (Impl.Delete opts0 stBar kFoo).1
          (bucketDelete bstGz (ropts0.getRemoteName kFoo)).1)) :=
  remote_delete_error_surface opts0 ropts0 stBar bstGz kFoo

/-! ## C8: a NoSuchKey from the final delete is counted as a failure -/

/-- C8 is refuted by the code: when a foreground Delete empties the store
between `uploadKey`'s bucket write and its final local delete (here
`s0 = s1 = stBar` but `s2 = st0`), the final `Local.Delete` reports
NoSuchKey, `uploadKey` returns that error unfiltered, and the worker
counts the key as failed — not as uploaded. -/
theorem uploadKey_nosuchkey_counts_failed_cex :
    (RemoteDB.uploadKey opts0 ropts0 stBar stBar st0 bst0 kFoo).1 =
      .deleted (some (.noSuchKey kFoo)) ∧
    RemoteDB.workerTally ropts0 kFoo
      (RemoteDB.uploadKey opts0 ropts0 stBar stBar st0 bst0 kFoo).1.toErr = .failed ∧
    RemoteDB.workerTally ropts0 kFoo
      (RemoteDB.uploadKey opts0 ropts0 stBar stBar st0 bst0 kFoo).1.toErr ≠ .uploaded := by
  have hread : RemoteDB.readAndGzip opts0 stBar kFoo =
      .ok (crc32c uploadContent, uploadContent) := rfl
  have hdel : Impl.Delete opts0 st0 kFoo = (some (.noSuchKey kFoo), st0) := rfl
  refine ⟨?_, ?_, ?_⟩ <;>
    simp [RemoteDB.uploadKey, hread, hdel, RemoteDB.workerTally,
      UploadOutcome.toErr, ropts0]

/-- C8 amended: when the checksums agree and the final `Local.Delete`
reports NoSuchKey (the entry vanished underneath the uploader),
`uploadKey` returns that NoSuchKey error and the worker counts the key as
failed (the next scan simply no longer finds it), not as uploaded. -/
theorem uploadKey_nosuchkey_counted_failed (opts : Options) (ropts : RemoteOptions)
    (s0 s1 s2 : LocalState) (bst : BucketState) (k : List Nat)
    (c0 c1 : Nat) (b0 b1 : List Nat)
    (h0 : RemoteDB.readAndGzip opts s0 k = .ok (c0, b0))
    (h1 : RemoteDB.readAndGzip opts s1 k = .ok (c1, b1))
    (hc : c1 = c0)
    (hd : (Impl.Delete opts s2 k).1 = some (.noSuchKey k))
    (hs : ropts.skipKey k = false) :
    (RemoteDB.uploadKey opts ropts s0 s1 s2 bst k).1.toErr =
      some (.noSuchKey k) ∧
    RemoteDB.workerTally ropts k
      (RemoteDB.uploadKey opts ropts s0 s1 s2 bst k).1.toErr = .failed := by
  unfold RemoteDB.uploadKey
  rw [h0, h1, hc]
  simp [hd, UploadOutcome.toErr, RemoteDB.workerTally, hs]

/-- Witness for the amended C8. -/
theorem uploadKey_nosuchkey_counted_failed_witness :
    (RemoteDB.uploadKey opts0 ropts0 stBar stBar st0 bst0 kFoo).1.toErr =
      some (.noSuchKey kFoo) ∧
    RemoteDB.workerTally ropts0 kFoo
      (RemoteDB.uploadKey opts0 ropts0 stBar stBar st0 bst0 kFoo).1.toErr = .failed :=
  uploadKey_nosuchkey_counted_failed opts0 ropts0 stBar stBar st0 bst0 kFoo
    (crc32c uploadContent) (crc32c uploadContent) uploadContent uploadContent
    rfl rfl rfl rfl rfl

/-! ## C9: ScanKeys with a nil errFunc on a failing walk -/

/-- C9 is refuted by the code (against the repo's own `Local.ScanKeys` doc
contract): on a walk that reports an I/O error, `ScanKeys` with a nil
errFunc calls the nil function value and panics instead of stopping the
scan and returning the error. -/
theorem scanKeys_nil_errfunc_panics :
    Impl.ScanKeys (fun _ => true) none [WalkNode.nodeErr pErr] = .panicked ∧
    Impl.ScanKeys (fun _ => true) none [WalkNode.nodeErr pErr] ≠ .errored pErr :=
  ⟨rfl, by decide⟩
